import Mathlib

/-!
Verification of the CClaw terminal UI core (src/runtime/tui.c).

The C file is shallowly embedded below.  Machine integers of the C code are
modelled as `Nat` with an explicit `% 2^32` wherever the 32-bit wraparound is
observable (the history browse cursor `history_pos` is a `uint32_t` whose
"not browsing" sentinel is `(uint32_t)-1`).  C strings are modelled as lists
of bytes (`List Nat`), NUL included where a buffer is modelled byte for byte.
The `tui_t` handle is modelled as a record; the `if (!tui)` NULL-handle
guards of the C code are omitted because the model has no null handles.
-/

/-- 2^32, the modulus of the C `uint32_t` fields. -/
def U32 : Nat := 4294967296

/-- `(uint32_t)-1`, the sentinel stored in `history_pos` meaning
*not browsing*. -/
def NOT_BROWSING : Nat := U32 - 1

/-- The session state: the fields of `tui_t` (declared in `runtime/tui.h`,
not present in the repository snapshot; the fields are reconstructed from
every use in `tui.c`).  `config.width`/`config.height` are flattened to
`width`/`height`; the live history entries `history[0..history_count-1]`
are held as the list `history` (so `history_count` is `history.length`);
panels, theme, agent handle and the saved `termios` are omitted — no claim
mentions them. -/
structure Tui where
  width : Nat
  height : Nat
  running : Bool
  needs_redraw : Bool
  raw_mode : Bool
  input_buffer : List Nat
  input_len : Nat
  input_pos : Nat
  input_capacity : Nat
  history : List (List Nat)
  history_capacity : Nat
  history_pos : Nat
  deriving DecidableEq, Repr

/-- `tui_create` (success path: both allocations succeed).  `calloc` zeroes
the struct (`running = false` is then set explicitly, `needs_redraw = true`,
`input_len = input_pos = history_pos = 0`); the input buffer comes from
`malloc` whose contents are indeterminate, modelled by the explicit
`garbage` argument, of which only byte 0 is initialised
(`input_buffer[0] = '\0'`).  `input_capacity` is `TUI_MAX_INPUT_LENGTH`, a
constant of the absent header, modelled as `garbage.length` (the buffer is
allocated with exactly `input_capacity` bytes). -/
def tui_create (width height history_capacity : Nat) (garbage : List Nat) : Tui :=
  { width := width
    height := height
    running := false
    needs_redraw := true
    raw_mode := false
    input_buffer := garbage.set 0 0
    input_len := 0
    input_pos := 0
    input_capacity := garbage.length
    history := []
    history_capacity := history_capacity
    history_pos := 0 }

/-! ## History store (`tui_history_add` / `tui_history_prev` / `tui_history_next`) -/

/-- `tui_history_add`.  Rejects an empty entry (`strlen(entry) == 0`) and an
entry equal to the newest one (`history_count > 0 &&
strcmp(tui->history[0], entry) == 0`, i.e. `history.head? = some entry`).
At capacity the oldest entry (index `history_capacity - 1`) is freed and
`history_count` decremented, then all entries shift up one slot and the new
entry becomes index 0; finally `history_pos = (uint32_t)-1`. -/
def tui_history_add (s : Tui) (entry : List Nat) : Tui :=
  if entry.length = 0 then s
  else if s.history.head? = some entry then s
  else
    let h1 := if s.history.length ≥ s.history_capacity then s.history.dropLast
              else s.history
    { s with history := entry :: h1, history_pos := NOT_BROWSING }

/-- `tui_history_prev`.  The C test `tui->history_pos + 1 <
tui->history_count` is 32-bit: from the sentinel `(uint32_t)-1` the sum
wraps to 0, which restarts browsing at the newest entry. -/
def tui_history_prev (s : Tui) : Option (List Nat) × Tui :=
  if s.history.length = 0 then (none, s)
  else if (s.history_pos + 1) % U32 < s.history.length then
    ((s.history.get? ((s.history_pos + 1) % U32)),
     { s with history_pos := (s.history_pos + 1) % U32 })
  else (none, s)

/-- `tui_history_next`.  The C test is `tui->history_pos > 0`, which is also
true of the *not browsing* sentinel `(uint32_t)-1`: in that state the code
decrements the sentinel and returns `tui->history[(uint32_t)-2]`.  The model
renders that out-of-bounds read as `List.get?` (which yields `none` for any
index ≥ `history.length`, where the C program reads a garbage pointer). -/
def tui_history_next (s : Tui) : Option (List Nat) × Tui :=
  if s.history.length = 0 then (none, s)
  else if s.history_pos > 0 then
    ((s.history.get? (s.history_pos - 1)),
     { s with history_pos := s.history_pos - 1 })
  else (none, { s with history_pos := NOT_BROWSING })

/-! ## Concrete history stores used by the concrete claims -/

/-- The byte string "a". -/
def sA : List Nat := [97]
/-- The byte string "b". -/
def sB : List Nat := [98]
/-- The byte string "c". -/
def sC : List Nat := [99]
/-- The byte string "d". -/
def sD : List Nat := [100]
/-- The byte string "e". -/
def sE : List Nat := [101]

/-- A capacity-4 history store that received "a","b","c","d","e" in order. -/
def hist5 : Tui :=
  tui_history_add
    (tui_history_add
      (tui_history_add
        (tui_history_add
          (tui_history_add (tui_create 80 24 4 [0]) sA) sB) sC) sD) sE

def c3p1 : Option (List Nat) × Tui := tui_history_prev hist5
def c3p2 : Option (List Nat) × Tui := tui_history_prev c3p1.2
def c3p3 : Option (List Nat) × Tui := tui_history_prev c3p2.2
def c3p4 : Option (List Nat) × Tui := tui_history_prev c3p3.2
def c3p5 : Option (List Nat) × Tui := tui_history_prev c3p4.2
def c3n1 : Option (List Nat) × Tui := tui_history_next c3p5.2
def c3n2 : Option (List Nat) × Tui := tui_history_next c3n1.2
def c3n3 : Option (List Nat) × Tui := tui_history_next c3n2.2
def c3n4 : Option (List Nat) × Tui := tui_history_next c3n3.2
def c3p6 : Option (List Nat) × Tui := tui_history_prev c3n4.2

/-- A store in the *not browsing* state with one entry, as produced by a
single `add`: the reachable state on which claim C1 fails. -/
def c1state : Tui := tui_history_add (tui_create 80 24 4 [0]) sA

/-! ## Line editor (`tui_input_*`)

The input buffer is modelled byte for byte as a list of exactly
`input_capacity` bytes. -/

/-- The C string held in a byte buffer: the bytes before the first NUL.
When the buffer holds no NUL at all, the whole buffer is returned —
the point at which the C `strlen` would keep reading past the
allocation (undefined behaviour). -/
def cstr (buf : List Nat) : List Nat := buf.takeWhile (fun c => c != 0)

/-- `strlen` on the modelled buffer (see `cstr` for the overrun case). -/
def strlen (buf : List Nat) : Nat := (cstr buf).length

/-- `strncpy(dst, src, n)` where `src` is a NUL-free byte string (a history
entry): copies at most `n` bytes of `src`, zero-filling up to `n` bytes when
`src` is shorter; bytes of `dst` from index `n` on are untouched.  When
`src.length ≥ n`, no NUL is written — the C pitfall at the heart of claim
C2. -/
def strncpy (dst src : List Nat) (n : Nat) : List Nat :=
  (src.take n ++ List.replicate (n - src.length) 0) ++ dst.drop n

/-- `tui_input_clear`: writes `'\0'` at index 0 and zeroes length and
cursor. -/
def tui_input_clear (s : Tui) : Tui :=
  { s with input_buffer := s.input_buffer.set 0 0, input_len := 0, input_pos := 0 }

/-- The loop `for (i = input_len; i > input_pos; i--) buf[i] = buf[i-1]` of
`tui_input_insert`, with `i` counting down; each slot `i` receives the byte
below it (which the loop has not yet overwritten). -/
def insertShift (buf : List Nat) (pos : Nat) : Nat → List Nat
  | 0 => buf
  | i + 1 =>
    if i + 1 > pos then insertShift (buf.set (i + 1) (buf.getD i 0)) pos i
    else buf

/-- The loop `for (i = start; i < stop; i++) buf[i] = buf[i+1]` shared by
`tui_input_backspace` and `tui_input_delete`. -/
def deleteShift (buf : List Nat) (i stop : Nat) : List Nat :=
  if i < stop then deleteShift (buf.set i (buf.getD (i + 1) 0)) (i + 1) stop
  else buf
termination_by stop - i
decreasing_by simp_wf; omega

/-- `tui_input_insert`: silently rejected once
`input_len >= input_capacity - 1`; otherwise shift right from the cursor,
write the byte at the cursor, bump length and cursor, and re-terminate at
the new length. -/
def tui_input_insert (s : Tui) (c : Nat) : Tui :=
  if s.input_len ≥ s.input_capacity - 1 then s
  else
    let buf1 := insertShift s.input_buffer s.input_pos s.input_len
    let buf2 := buf1.set s.input_pos c
    { s with input_buffer := buf2.set (s.input_len + 1) 0,
             input_len := s.input_len + 1,
             input_pos := s.input_pos + 1 }

/-- `tui_input_backspace`: no-op at cursor 0; otherwise shift
`[pos-1, len-1)` left, decrement length and cursor, re-terminate. -/
def tui_input_backspace (s : Tui) : Tui :=
  if s.input_pos = 0 then s
  else
    let buf1 := deleteShift s.input_buffer (s.input_pos - 1) (s.input_len - 1)
    { s with input_buffer := buf1.set (s.input_len - 1) 0,
             input_len := s.input_len - 1,
             input_pos := s.input_pos - 1 }

/-- `tui_input_delete`: no-op when `input_pos >= input_len`; otherwise shift
`[pos, len-1)` left, decrement length, re-terminate. -/
def tui_input_delete (s : Tui) : Tui :=
  if s.input_pos ≥ s.input_len then s
  else
    let buf1 := deleteShift s.input_buffer s.input_pos (s.input_len - 1)
    { s with input_buffer := buf1.set (s.input_len - 1) 0,
             input_len := s.input_len - 1 }

/-- `tui_input_move_left`. -/
def tui_input_move_left (s : Tui) : Tui :=
  if s.input_pos > 0 then { s with input_pos := s.input_pos - 1 } else s

/-- `tui_input_move_right`. -/
def tui_input_move_right (s : Tui) : Tui :=
  if s.input_pos < s.input_len then { s with input_pos := s.input_pos + 1 } else s

/-- `tui_input_move_home`. -/
def tui_input_move_home (s : Tui) : Tui := { s with input_pos := 0 }

/-- `tui_input_move_end`. -/
def tui_input_move_end (s : Tui) : Tui := { s with input_pos := s.input_len }

/-- `tui_input_get`: the buffer read back as a C string. -/
def tui_input_get (s : Tui) : List Nat := cstr s.input_buffer

/-- The spec's `replace_with` operation, inline in the arrow-key handlers of
`tui_process_input` (lines 529–531 and 539–541):
`strncpy(input_buffer, hist, input_capacity - 1);
input_len = strlen(input_buffer); input_pos = input_len;`. -/
def tui_recall (s : Tui) (hist : List Nat) : Tui :=
  let buf := strncpy s.input_buffer hist (s.input_capacity - 1)
  { s with input_buffer := buf,
           input_len := strlen buf,
           input_pos := strlen buf }

/-! ## Input dispatch (`tui_process_input`) -/

/-- `TUI_KEY_CTRL(k)`, the conventional `((k) & 0x1f)` macro.  Modelled from
the spec: the macro lives in the absent `runtime/tui.h`; spec §4.2 fixes the
mapping (control byte `n ∈ [1,26]` is Ctrl plus the letter `n | 0x60`), which
is exactly `k % 32` of the letter's byte. -/
def TUI_KEY_CTRL (k : Nat) : Nat := k % 32

/-- `TUI_KEY_BACKSPACE` (absent header): the DEL byte 127 that terminals
send for the Backspace key, per spec §3's Backspace `KeyEvent`. -/
def TUI_KEY_BACKSPACE : Nat := 127

/-- `TUI_KEY_ESC` (absent header): the escape byte `0x1B`. -/
def TUI_KEY_ESC : Nat := 27

/-- C `isprint` in the default locale: bytes `0x20`–`0x7E`.  (`char` is
signed in C, so bytes ≥ 128 appear negative and are not printable either
way.) -/
def isprint (c : Nat) : Bool := 32 ≤ c && c ≤ 126

/-- Observable output of the dispatcher, beyond the session state: the two
`tui_chat_add_system_message` texts (help / "Created new branch"), the
`tui_chat_add_user_message` echo of a submitted line, and a forced
`tui_redraw`. -/
inductive OutEvent where
  | sysHelp : OutEvent
  | sysNewBranch : OutEvent
  | userMsg : List Nat → OutEvent
  | redrawEv : OutEvent
  deriving DecidableEq, Repr

/-- `tui_process_input`.  The pending byte stream stands in for
`read(STDIN_FILENO, ...)`: an empty stream is a timed-out read (`n <= 0`,
return with nothing done).  Returns the new state, the unconsumed input and
the emitted output events.  Structure mirrors the C dispatch: escape
sequences (two lookahead reads, arrows / delete), Ctrl+C/Q stop, Ctrl+H/N
messages, Ctrl+L forced redraw, then the `switch` on Enter / Backspace /
Ctrl+A / Ctrl+E / Ctrl+U / printable. -/
def tui_process_input (s : Tui) (input : List Nat) : Tui × List Nat × List OutEvent :=
  match input with
  | [] => (s, [], [])
  | c :: rest =>
    if c = 27 then
      match rest with
      | [] => (s, [], [])
      | [_] => (s, [], [])
      | s0 :: s1 :: rest2 =>
        let (t, rest3) :=
          if s0 = 91 then
            if s1 = 65 then
              let pr := tui_history_prev s
              (match pr.1 with
               | some e => tui_recall pr.2 e
               | none => pr.2, rest2)
            else if s1 = 66 then
              let nx := tui_history_next s
              (match nx.1 with
               | some e => tui_recall nx.2 e
               | none => tui_input_clear nx.2, rest2)
            else if s1 = 67 then (tui_input_move_right s, rest2)
            else if s1 = 68 then (tui_input_move_left s, rest2)
            else if s1 = 51 then (tui_input_delete s, rest2.drop 1)
            else (s, rest2)
          else (s, rest2)
        ({ t with needs_redraw := true }, rest3, [])
    else if c = TUI_KEY_CTRL 99 ∨ c = TUI_KEY_CTRL 113 then
      ({ s with running := false }, rest, [])
    else if c = TUI_KEY_CTRL 104 then
      ({ s with needs_redraw := true }, rest, [OutEvent.sysHelp])
    else if c = TUI_KEY_CTRL 110 then
      ({ s with needs_redraw := true }, rest, [OutEvent.sysNewBranch])
    else if c = TUI_KEY_CTRL 108 then
      (s, rest, [OutEvent.redrawEv])
    else
      let (t, evs) :=
        if c = 13 ∨ c = 10 then
          if s.input_len > 0 then
            let entry := cstr s.input_buffer
            (tui_input_clear (tui_history_add s entry), [OutEvent.userMsg entry])
          else (s, ([] : List OutEvent))
        else if c = TUI_KEY_BACKSPACE then (tui_input_backspace s, [])
        else if c = TUI_KEY_CTRL 97 ∨ c = TUI_KEY_ESC then (tui_input_move_home s, [])
        else if c = TUI_KEY_CTRL 101 then (tui_input_move_end s, [])
        else if c = TUI_KEY_CTRL 117 then (tui_input_clear s, [])
        else if isprint c then (tui_input_insert s c, [])
        else (s, ([] : List OutEvent))
      ({ t with needs_redraw := true }, rest, evs)

/-! ## Terminal controller (`tui_get_terminal_size`, `resize_handler`,
`tui_init_terminal`, `tui_run`) -/

/-- `TUI_DEFAULT_WIDTH`.  Modelled from the spec: the constant lives in the
absent `runtime/tui.h`; spec §4.1 only says "fixed documented defaults", so
the conventional 80 is used — no claim depends on the value. -/
def TUI_DEFAULT_WIDTH : Nat := 80

/-- `TUI_DEFAULT_HEIGHT`.  Modelled from the spec, as `TUI_DEFAULT_WIDTH`. -/
def TUI_DEFAULT_HEIGHT : Nat := 24

/-- `tui_get_terminal_size`: the `ioctl(TIOCGWINSZ)` query is the `query`
oracle; on failure (`none`) the fixed defaults are returned. -/
def tui_get_terminal_size (query : Option (Nat × Nat)) : Nat × Nat :=
  match query with
  | some wh => wh
  | none => (TUI_DEFAULT_WIDTH, TUI_DEFAULT_HEIGHT)

/-- Terminal-level side effects whose presence or absence the claims track. -/
inductive TermEvent where
  | cursorHide : TermEvent
  | sigwinchInstalled : TermEvent
  | initialRedraw : TermEvent
  | loopEntered : TermEvent
  deriving DecidableEq, Repr

/-- `resize_handler` (the SIGWINCH callback), acting on the active session
(`g_tui`; the `if (g_tui)` null guard is the model's premise that a session
is active).  It re-queries the terminal size into `config.width`/`height`
and sets `needs_redraw`; the empty event list records that it draws
nothing. -/
def resize_handler (s : Tui) (query : Option (Nat × Nat)) : Tui × List TermEvent :=
  ({ s with width := (tui_get_terminal_size query).1,
            height := (tui_get_terminal_size query).2,
            needs_redraw := true }, [])

/-- The error codes of `err_t` used by `tui.c` (declared in a header absent
from the snapshot; the spec's `TerminalIOFailure` is `ERR_FAILED`, its
taxonomy's attribute get/set failure). -/
inductive Err where
  | ERR_OK : Err
  | ERR_INVALID_ARGUMENT : Err
  | ERR_OUT_OF_MEMORY : Err
  | ERR_FAILED : Err
  deriving DecidableEq, Repr

/-- Outcome of the two OS calls of raw-mode entry. -/
structure OSResult where
  tcgetattr_ok : Bool
  tcsetattr_ok : Bool
  deriving DecidableEq, Repr

/-- `tui_init_terminal`: `tcgetattr` failure and `tcsetattr` failure each
return `ERR_FAILED` before any side effect; only after both succeed is
`raw_mode` set and the cursor-hide sequence printed. -/
def tui_init_terminal (os : OSResult) (s : Tui) : Err × Tui × List TermEvent :=
  if os.tcgetattr_ok = false then (Err.ERR_FAILED, s, [])
  else if os.tcsetattr_ok = false then (Err.ERR_FAILED, s, [])
  else (Err.ERR_OK, { s with raw_mode := true }, [TermEvent.cursorHide])

/-- `tui_run` up to the top of its `while (tui->running)` loop: stores the
agent handle (not modelled), sets `running`, calls `tui_init_terminal` and
returns its error on failure; on success installs the SIGWINCH handler,
draws once and enters the dispatch loop (recorded as `loopEntered`; the
loop body itself is `tui_process_input` above iterated over the input
stream). -/
def tui_run_setup (os : OSResult) (s : Tui) : Err × Tui × List TermEvent :=
  let s0 := { s with running := true }
  let r := tui_init_terminal os s0
  if r.1 = Err.ERR_OK then
    (Err.ERR_OK, r.2.1,
     r.2.2 ++ [TermEvent.sigwinchInstalled, TermEvent.initialRedraw, TermEvent.loopEntered])
  else (r.1, r.2.1, r.2.2)

/-! ## Further derived definitions used by the claims -/

/-- Inserting a byte string one character at a time (spec §8's round trip). -/
def insertString (s : Tui) (cs : List Nat) : Tui := List.foldl tui_input_insert s cs

/-- The state of claim C2's failing input: a freshly created capacity-4
editor whose `malloc`ed buffer holds the indeterminate bytes
`[9, 65, 65, 65]` (only byte 0 is initialised by `tui_create`), to which
`replace_with` (the history-recall `strncpy`) is applied with the
3-byte text "AAA" — a text of length `input_capacity - 1`. -/
def c2state : Tui := tui_recall (tui_create 80 24 4 [9, 65, 65, 65]) [65, 65, 65]

/-- Fresh capacity-4 editor used by claim C8's witness. -/
def c8s0 : Tui := tui_create 80 24 4 [0, 0, 0, 0]

/-- The editor `c8s0` filled to its hard bound `input_capacity - 1 = 3`. -/
def c8s3 : Tui := insertString c8s0 [97, 97, 97]

/-! ## Helper lemmas -/

/-- Reading a buffer `p ++ 0 :: t` as a C string yields `p` when `p` is
NUL-free. -/
lemma cstr_append_zero (p t : List Nat) (hp : ∀ c ∈ p, c ≠ 0) :
    cstr (p ++ 0 :: t) = p := by
  induction p with
  | nil => simp [cstr]
  | cons a p ih =>
    have ha : (a != 0) = true := by simpa using hp a (by simp)
    have ih2 := ih (fun c hc => hp c (by simp [hc]))
    simp only [cstr] at ih2 ⊢
    simp [List.takeWhile_cons, ha, ih2]

/-- Setting the byte just past a NUL-free run: `(p ++ x :: t).set |p| y`. -/
lemma set_append_cons (p t : List Nat) (x y : Nat) :
    (p ++ x :: t).set p.length y = p ++ y :: t := by
  induction p with
  | nil => rfl
  | cons a p ih => simp [ih]

/-- `tui_history_add` rejects (unchanged) an entry equal to the newest. -/
lemma tui_history_add_head_dup (s : Tui) (e : List Nat)
    (hd : s.history.head? = some e) : tui_history_add s e = s := by
  by_cases h0 : e.length = 0
  · simp [tui_history_add, h0]
  · simp [tui_history_add, h0, hd]

/-- The right-shift loop of `tui_input_insert` does nothing when the cursor
is already at the end (`input_pos = input_len`). -/
lemma insertShift_self (buf : List Nat) (n : Nat) : insertShift buf n n = buf := by
  cases n with
  | zero => rfl
  | succ k => simp [insertShift]

/-- Inserting `cs` with the cursor at the end of a well-formed buffer
`p ++ 0 :: t` appends `cs` before the terminator, as long as `t` leaves
room. -/
lemma insertString_end_spec (cs : List Nat) :
    ∀ (s : Tui) (p t : List Nat),
      s.input_buffer = p ++ 0 :: t →
      s.input_len = p.length →
      s.input_pos = p.length →
      s.input_capacity = p.length + 1 + t.length →
      cs.length ≤ t.length →
      ∃ t2 : List Nat,
        (insertString s cs).input_buffer = (p ++ cs) ++ 0 :: t2 ∧
        (insertString s cs).input_len = p.length + cs.length ∧
        (insertString s cs).input_pos = p.length + cs.length := by
  induction cs with
  | nil =>
    intro s p t hbuf hlen hpos _ _
    exact ⟨t, by simp [insertString, hbuf], by simp [insertString, hlen],
           by simp [insertString, hpos]⟩
  | cons c cs ih =>
    intro s p t hbuf hlen hpos hcap hle
    obtain ⟨t0, t', rfl⟩ : ∃ t0 t', t = t0 :: t' := by
      cases t with
      | nil => simp at hle
      | cons t0 t' => exact ⟨t0, t', rfl⟩
    have hguard : ¬ p.length ≥ s.input_capacity - 1 := by
      simp only [hcap, List.length_cons]; omega
    have hstep : tui_input_insert s c =
        { s with input_buffer := (p ++ [c]) ++ 0 :: t',
                 input_len := p.length + 1,
                 input_pos := p.length + 1 } := by
      simp only [tui_input_insert, hbuf, hlen, hpos, insertShift_self, if_neg hguard]
      rw [set_append_cons]
      have hpc : p ++ c :: t0 :: t' = (p ++ [c]) ++ t0 :: t' := by simp
      have hlc : p.length + 1 = (p ++ [c]).length := by simp
      rw [hpc, hlc, set_append_cons]
      try simp
    have hrec := ih (tui_input_insert s c) (p ++ [c]) t'
      (by rw [hstep]) (by rw [hstep]; simp) (by rw [hstep]; simp)
      (by rw [hstep]; simp only [hcap, List.length_append, List.length_cons,
            List.length_nil]; omega)
      (by simp only [List.length_cons] at hle; omega)
    obtain ⟨t2, hb, hl, hp2⟩ := hrec
    refine ⟨t2, ?_, ?_, ?_⟩
    · have : insertString s (c :: cs) = insertString (tui_input_insert s c) cs := rfl
      rw [this, hb]; simp
    · have : insertString s (c :: cs) = insertString (tui_input_insert s c) cs := rfl
      rw [this, hl]; simp; omega
    · have : insertString s (c :: cs) = insertString (tui_input_insert s c) cs := rfl
      rw [this, hp2]; simp; omega

/-! ## Claim theorems -/

/-- Claim C1 (code bug): the spec says `next()` from *not browsing* returns
none and is a no-op, but `tui_history_next`'s test `history_pos > 0` is also
true of the sentinel `(uint32_t)-1`, so on the reachable not-browsing store
`c1state` (history `["a"]`, `history_pos = 2^32-1` after one `add`) it
decrements the sentinel to `2^32-2` — not a no-op — and reads
`history[2^32-2]`, an index beyond the live entries (an out-of-bounds read
in the C program). -/
theorem claim_c1_next_not_browsing_bug :
    (tui_history_next c1state).2.history_pos = U32 - 2 ∧
    (tui_history_next c1state).2.history_pos ≠ c1state.history_pos ∧
    c1state.history.length ≤ U32 - 2 := by decide

/-- Claim C2 (code bug): `replace_with` (the `strncpy`-based history recall)
with a text of length `input_capacity - 1` writes no terminator, so on a
fresh editor whose `malloc`ed byte at index `capacity - 1` is nonzero the
resulting `strlen` runs to (and in C past) the end of the allocation:
`input_len` becomes 4 > `input_capacity - 1` = 3 and the buffer holds no
NUL at all, breaking both halves of the claimed invariant. -/
theorem claim_c2_replace_with_unterminated_bug :
    c2state.input_buffer = [65, 65, 65, 65] ∧
    c2state.input_len = 4 ∧
    c2state.input_capacity - 1 = 3 ∧
    ¬ c2state.input_len ≤ c2state.input_capacity - 1 ∧
    (0 : Nat) ∉ c2state.input_buffer := by decide

/-- Claim C3: on the capacity-4 store `hist5` holding `[e,d,c,b]` and not
browsing, four `prev()` calls yield e, d, c, b; a fifth returns none with
the index unchanged; four `next()` calls then yield c, d, e and finally
none while transitioning to *not browsing*; one more `prev()` yields e
again. -/
theorem claim_c3_browse_asymmetry :
    c3p1.1 = some sE ∧ c3p2.1 = some sD ∧ c3p3.1 = some sC ∧ c3p4.1 = some sB ∧
    c3p5.1 = none ∧ c3p5.2.history_pos = c3p4.2.history_pos ∧
    c3n1.1 = some sC ∧ c3n2.1 = some sD ∧ c3n3.1 = some sE ∧
    c3n4.1 = none ∧ c3n4.2.history_pos = NOT_BROWSING ∧
    c3p6.1 = some sE := by decide

/-- Claim C4: the capacity-4 store fed "a".."e" ends holding
`[e, d, c, b]`; in general an accepted `add` on a store at capacity drops
the oldest entry and puts the new entry at index 0. -/
theorem claim_c4_eviction :
    hist5.history = [sE, sD, sC, sB] ∧
    ∀ (s : Tui) (e : List Nat),
      s.history.length = s.history_capacity →
      e ≠ [] → s.history.head? ≠ some e →
      (tui_history_add s e).history = e :: s.history.dropLast := by
  refine ⟨by decide, ?_⟩
  intro s e hfull hne hdup
  have h0 : ¬ e.length = 0 := by simpa [List.length_eq_zero] using hne
  simp [tui_history_add, h0, hdup, hfull]

/-- Witness for claim C4's general clause: a concrete full capacity-2
store. -/
theorem claim_c4_eviction_witness :
    (tui_history_add
        { c1state with history := [sA, sB], history_capacity := 2 } sC).history
      = [sC, sA] :=
  claim_c4_eviction.2
    { c1state with history := [sA, sB], history_capacity := 2 } sC
    (by decide) (by decide) (by decide)

/-- Claim C5: `add` rejects the empty entry unchanged; rejects an entry
equal to the newest entry; an accepted entry becomes index 0 and resets the
browse state to *not browsing* (no condition excludes duplicates of
non-newest entries); below capacity an accepted add grows the store by one;
and adding the same entry twice in a row is the same as adding it once. -/
theorem claim_c5_add_rules :
    (∀ s : Tui, tui_history_add s [] = s) ∧
    (∀ (s : Tui) (e : List Nat), s.history.head? = some e →
      tui_history_add s e = s) ∧
    (∀ (s : Tui) (e : List Nat), e ≠ [] → s.history.head? ≠ some e →
      (tui_history_add s e).history.head? = some e ∧
      (tui_history_add s e).history_pos = NOT_BROWSING) ∧
    (∀ (s : Tui) (e : List Nat), e ≠ [] → s.history.head? ≠ some e →
      s.history.length < s.history_capacity →
      (tui_history_add s e).history.length = s.history.length + 1) ∧
    (∀ (s : Tui) (e : List Nat),
      tui_history_add (tui_history_add s e) e = tui_history_add s e) := by
  refine ⟨?_, ?_, ?_, ?_, ?_⟩
  · intro s; simp [tui_history_add]
  · intro s e hd
    exact tui_history_add_head_dup s e hd
  · intro s e hne hdup
    have h0 : ¬ e.length = 0 := by simpa [List.length_eq_zero] using hne
    constructor <;> simp [tui_history_add, h0, hdup]
  · intro s e hne hdup hlt
    have h0 : ¬ e.length = 0 := by simpa [List.length_eq_zero] using hne
    have hge : ¬ s.history.length ≥ s.history_capacity := by omega
    simp [tui_history_add, h0, hdup, hge]
  · intro s e
    by_cases h0 : e.length = 0
    · simp [tui_history_add, h0]
    · by_cases hd : s.history.head? = some e
      · rw [tui_history_add_head_dup s e hd]
        exact tui_history_add_head_dup s e hd
      · exact tui_history_add_head_dup _ e (by simp [tui_history_add, h0, hd])

/-- Witness for claim C5 at concrete inputs, discharging each hypothesis. -/
theorem claim_c5_add_rules_witness :
    tui_history_add c1state [] = c1state ∧
    tui_history_add c1state sA = c1state ∧
    (tui_history_add c1state sB).history.head? = some sB ∧
    (tui_history_add c1state sB).history_pos = NOT_BROWSING ∧
    (tui_history_add c1state sB).history.length = c1state.history.length + 1 ∧
    tui_history_add (tui_history_add c1state sB) sB = tui_history_add c1state sB := by
  have h := claim_c5_add_rules
  exact ⟨h.1 c1state, h.2.1 c1state sA (by decide),
         (h.2.2.1 c1state sB (by decide) (by decide)).1,
         (h.2.2.1 c1state sB (by decide) (by decide)).2,
         h.2.2.2.1 c1state sB (by decide) (by decide) (by decide),
         h.2.2.2.2 c1state sB⟩

/-- Counterexample to claim C6 as stated: with any finite capacity the
round trip fails for a long enough string — on a capacity-4 editor the
four-byte string "abcd" reads back as "abc" (the fourth insert is silently
rejected at the `input_capacity - 1` bound). -/
theorem claim_c6_counterexample :
    tui_input_get (insertString (tui_create 80 24 10 [0, 0, 0, 0]) [97, 98, 99, 100])
      ≠ [97, 98, 99, 100] := by decide

/-- Claim C6 (amended): for every NUL-free byte string of length at most
`input_capacity - 1`, inserting it one character at a time at the end of a
freshly created editor and reading the text back yields exactly the
original string. -/
theorem claim_c6_round_trip (width height histcap : Nat)
    (garbage cs : List Nat) (hg : garbage ≠ [])
    (hcs : ∀ c ∈ cs, c ≠ 0)
    (hlen : cs.length ≤ garbage.length - 1) :
    tui_input_get (insertString (tui_create width height histcap garbage) cs) = cs ∧
    (insertString (tui_create width height histcap garbage) cs).input_len
      = cs.length := by
  obtain ⟨g0, gs, rfl⟩ : ∃ g0 gs, garbage = g0 :: gs := by
    cases garbage with
    | nil => exact absurd rfl hg
    | cons g0 gs => exact ⟨g0, gs, rfl⟩
  obtain ⟨t2, hb, hl, _⟩ :=
    insertString_end_spec cs (tui_create width height histcap (g0 :: gs)) [] gs
      rfl rfl rfl (by simp [tui_create]; omega)
      (by simpa using hlen)
  constructor
  · rw [tui_input_get, hb]
    simpa using cstr_append_zero cs t2 hcs
  · simpa using hl

/-- Witness for claim C6: the two-byte string "hi" on a capacity-4
editor. -/
theorem claim_c6_round_trip_witness :
    tui_input_get (insertString (tui_create 80 24 10 [0, 0, 0, 0]) [104, 105])
      = [104, 105] ∧
    (insertString (tui_create 80 24 10 [0, 0, 0, 0]) [104, 105]).input_len = 2 :=
  claim_c6_round_trip 80 24 10 [0, 0, 0, 0] [104, 105] (by decide) (by decide)
    (by decide)

/-- Claim C7: if the attribute capture (`tcgetattr`) or apply (`tcsetattr`)
step fails, `tui_run` returns `ERR_FAILED` (the spec's
`TerminalIOFailure`), the raw-mode flag keeps its prior value, and no
terminal side effect happens at all — in particular no cursor-hide sequence
is emitted and the dispatch loop is never entered. -/
theorem claim_c7_init_failure (os : OSResult) (s : Tui)
    (hfail : os.tcgetattr_ok = false ∨ os.tcsetattr_ok = false) :
    (tui_run_setup os s).1 = Err.ERR_FAILED ∧
    (tui_run_setup os s).2.1.raw_mode = s.raw_mode ∧
    (tui_run_setup os s).2.2 = [] ∧
    TermEvent.cursorHide ∉ (tui_run_setup os s).2.2 ∧
    TermEvent.loopEntered ∉ (tui_run_setup os s).2.2 := by
  rcases hfail with h | h
  · simp [tui_run_setup, tui_init_terminal, h]
  · rcases hget : os.tcgetattr_ok with _ | _
    · simp [tui_run_setup, tui_init_terminal, hget]
    · simp [tui_run_setup, tui_init_terminal, hget, h]

/-- Witness for claim C7: a concrete session with `tcgetattr` failing. -/
theorem claim_c7_init_failure_witness :
    (tui_run_setup ⟨false, true⟩ c8s0).1 = Err.ERR_FAILED ∧
    (tui_run_setup ⟨false, true⟩ c8s0).2.1.raw_mode = c8s0.raw_mode ∧
    (tui_run_setup ⟨false, true⟩ c8s0).2.2 = [] ∧
    TermEvent.cursorHide ∉ (tui_run_setup ⟨false, true⟩ c8s0).2.2 ∧
    TermEvent.loopEntered ∉ (tui_run_setup ⟨false, true⟩ c8s0).2.2 :=
  claim_c7_init_failure ⟨false, true⟩ c8s0 (Or.inl rfl)

/-- Claim C8: backspace at cursor 0, delete-forward at the end, and the two
moves past an edge leave the state unchanged; insert is silently rejected
once `input_len = input_capacity - 1`; and from any state within the bound,
insert never grows the length past `input_capacity - 1`. -/
theorem claim_c8_boundary_noops (s : Tui) (c : Nat) :
    (s.input_pos = 0 → tui_input_backspace s = s ∧ tui_input_move_left s = s) ∧
    (s.input_pos = s.input_len →
      tui_input_delete s = s ∧ tui_input_move_right s = s) ∧
    (s.input_len = s.input_capacity - 1 → tui_input_insert s c = s) ∧
    (s.input_len ≤ s.input_capacity - 1 →
      (tui_input_insert s c).input_len ≤ s.input_capacity - 1) := by
  refine ⟨?_, ?_, ?_, ?_⟩
  · intro h
    exact ⟨by simp [tui_input_backspace, h], by simp [tui_input_move_left, h]⟩
  · intro h
    exact ⟨by simp [tui_input_delete, h], by simp [tui_input_move_right, h]⟩
  · intro h; simp [tui_input_insert, h]
  · intro h
    by_cases hg : s.input_len ≥ s.input_capacity - 1
    · simpa [tui_input_insert, hg] using h
    · simp [tui_input_insert, hg]; omega

/-- Witness for claim C8: the fresh editor `c8s0` (cursor 0, length 0) and
the full editor `c8s3` (length = capacity - 1 = 3). -/
theorem claim_c8_boundary_noops_witness :
    (tui_input_backspace c8s0 = c8s0 ∧ tui_input_move_left c8s0 = c8s0) ∧
    (tui_input_delete c8s0 = c8s0 ∧ tui_input_move_right c8s0 = c8s0) ∧
    tui_input_insert c8s3 98 = c8s3 ∧
    (tui_input_insert c8s3 98).input_len ≤ c8s3.input_capacity - 1 := by
  have h0 := claim_c8_boundary_noops c8s0 98
  have h3 := claim_c8_boundary_noops c8s3 98
  exact ⟨h0.1 (by decide), h0.2.1 (by decide),
         h3.2.2.1 (by decide), h3.2.2.2 (by decide)⟩

/-- Claim C9: the SIGWINCH handler re-queries the dimensions into the
stored width/height and sets the dirty flag; every other field of the
session is untouched and no output is emitted. -/
theorem claim_c9_resize_effect (s : Tui) (q : Option (Nat × Nat)) :
    (resize_handler s q).2 = [] ∧
    (resize_handler s q).1.width = (tui_get_terminal_size q).1 ∧
    (resize_handler s q).1.height = (tui_get_terminal_size q).2 ∧
    (resize_handler s q).1.needs_redraw = true ∧
    (resize_handler s q).1.running = s.running ∧
    (resize_handler s q).1.raw_mode = s.raw_mode ∧
    (resize_handler s q).1.input_buffer = s.input_buffer ∧
    (resize_handler s q).1.input_len = s.input_len ∧
    (resize_handler s q).1.input_pos = s.input_pos ∧
    (resize_handler s q).1.input_capacity = s.input_capacity ∧
    (resize_handler s q).1.history = s.history ∧
    (resize_handler s q).1.history_capacity = s.history_capacity ∧
    (resize_handler s q).1.history_pos = s.history_pos :=
  ⟨rfl, rfl, rfl, rfl, rfl, rfl, rfl, rfl, rfl, rfl, rfl, rfl, rfl⟩

/-- Claim C10: for every state and remaining input, the dispatcher maps the
Ctrl+A byte to cursor 0, the Ctrl+E byte to cursor = length, and the Ctrl+U
byte to a cleared line (length 0, cursor 0), leaving buffer and length
untouched for the two moves. -/
theorem claim_c10_extra_keybindings (s : Tui) (rest : List Nat) :
    ((tui_process_input s (TUI_KEY_CTRL 97 :: rest)).1.input_pos = 0 ∧
     (tui_process_input s (TUI_KEY_CTRL 97 :: rest)).1.input_len = s.input_len ∧
     (tui_process_input s (TUI_KEY_CTRL 97 :: rest)).1.input_buffer
       = s.input_buffer) ∧
    ((tui_process_input s (TUI_KEY_CTRL 101 :: rest)).1.input_pos =
       (tui_process_input s (TUI_KEY_CTRL 101 :: rest)).1.input_len ∧
     (tui_process_input s (TUI_KEY_CTRL 101 :: rest)).1.input_len = s.input_len ∧
     (tui_process_input s (TUI_KEY_CTRL 101 :: rest)).1.input_buffer
       = s.input_buffer) ∧
    ((tui_process_input s (TUI_KEY_CTRL 117 :: rest)).1.input_len = 0 ∧
     (tui_process_input s (TUI_KEY_CTRL 117 :: rest)).1.input_pos = 0) :=
  ⟨⟨rfl, rfl, rfl⟩, ⟨rfl, rfl, rfl⟩, ⟨rfl, rfl⟩⟩
